import Mathlib

/-!
Verification development for the binary-search-tree / red-black-tree core of
the CLRS teaching repository (`data_structures/tree/_base.py`,
`_binary_search_tree.py`, `_balance_search_tree.py`, plus the `Stack` class of
`data_structures/_stack.py` and the `exceptions` module).

The Python object graph is embedded as an arena: node objects become indices
into a list-backed heap, attribute reads/writes become reads/updates of heap
entries, Python `None` becomes `Option.none`, and Python exceptions become
values of an error type in an `Except` monad.  Every `while` loop of the
source is written as fuel-indexed recursion, so a program that diverges is one
that returns the fuel-exhaustion error for every fuel value.  All definitions
are transcribed statement by statement from the source, including its bugs
(e.g. the `x.p.right.p = y` line of `_right_rotate` and the
`while not x.isnil()` guard of `_rb_delete_fixup`).
-/

namespace CLRS

/-- `Color` enum of `_balance_search_tree.py` (RED = 1, BLACK = 2). -/
inductive Color where
  | red : Color
  | black : Color
deriving DecidableEq, Repr

/-- Python value usable as a node key in this development: the repository's
red-black sentinel stores the *string* `"T.nil"` as its key while client code
inserts integer keys, so key comparisons are cross-type Python comparisons. -/
inductive PKey where
  | int : Int → PKey
  | str : String → PKey
deriving DecidableEq, Repr

/-- Outcomes of a Python-level failure.  `typeError` models `TypeError` (e.g.
`int < str`), `attributeError` models `AttributeError` (attribute access on
`None`), `valueError` models `ValueError` (`max()` of an empty sequence),
`stackOverflow` models the repository's `StackOverflowError`, and `fuelOut`
is fuel exhaustion of the embedding: a call that yields `fuelOut` for every
fuel value is a call that does not terminate. -/
inductive Err where
  | typeError : Err
  | attributeError : Err
  | valueError : Err
  | stackOverflow : Err
  | fuelOut : Err
deriving DecidableEq, Repr

/-- Computation monad of the embedding. -/
abbrev M (α : Type) : Type := Except Err α

/-- Python `==` on keys: `int == str` falls back to identity-based `False`
(no exception); same-type comparison is value equality. -/
def pyEq : PKey → PKey → Bool
  | .int a, .int b => a == b
  | .str a, .str b => a == b
  | _, _ => false

/-- Python `<` on keys: comparing an `int` with a `str` raises `TypeError`. -/
def pyLt : PKey → PKey → M Bool
  | .int a, .int b => .ok (a < b)
  | .str a, .str b => .ok (decide (a < b))
  | _, _ => .error .typeError

/-- Attribute access through a possibly-`None` reference: Python raises
`AttributeError` when the reference is `None`. -/
def deref : Option Nat → M Nat
  | some i => .ok i
  | none => .error .attributeError

/-- The `__all__` list of `exceptions.py`: the complete set of custom
exception types defined by the repository. -/
def exceptions_all : List String :=
  ["StackUnderflowError", "StackOverflowError", "QueueUnderflowError",
   "QueueOverflowError", "HeapUnderflowError"]

namespace RBT

/-- A `RedBlackTree.Node`: attributes `key`, `left`, `right`, `p`, `color`
(`_balance_search_tree.py`).  Child/parent attributes hold either a node
reference (arena index, the sentinel being index 0) or Python `None`. -/
structure Node where
  key : PKey
  left : Option Nat
  right : Option Nat
  p : Option Nat
  color : Color
deriving DecidableEq, Repr

instance : Inhabited Node := ⟨⟨.str "T.nil", some 0, some 0, some 0, .black⟩⟩

/-- State of one `RedBlackTree` instance: the object heap (index 0 is the
single shared sentinel `_NIL`), the instance attribute `_root`, and the node
count `_n`. -/
structure TreeSt where
  heap : List Node
  root : Option Nat
  n : Nat
deriving DecidableEq, Repr

/-- The sentinel as built by `RedBlackTree.NIL.__init__`: key `"T.nil"`,
color BLACK, and self-referential `left`/`right`/`p`. -/
def nilNode : Node := ⟨.str "T.nil", some 0, some 0, some 0, .black⟩

/-- `RedBlackTree.__init__`: `_root = _NIL`, `_root.p = _NIL`, `_n = 0`. -/
def init : TreeSt := ⟨[nilNode], some 0, 0⟩

/-- Read the node object at index `i`. -/
def getN (s : TreeSt) (i : Nat) : Node := s.heap.getD i default

/-- Overwrite the node object at index `i`. -/
def setN (s : TreeSt) (i : Nat) (v : Node) : TreeSt := { s with heap := s.heap.set i v }

/-- `node.left = v`. -/
def setLeft (s : TreeSt) (i : Nat) (v : Option Nat) : TreeSt :=
  setN s i { getN s i with left := v }

/-- `node.right = v`. -/
def setRight (s : TreeSt) (i : Nat) (v : Option Nat) : TreeSt :=
  setN s i { getN s i with right := v }

/-- `node.p = v`. -/
def setP (s : TreeSt) (i : Nat) (v : Option Nat) : TreeSt :=
  setN s i { getN s i with p := v }

/-- `node.color = c`. -/
def setColor (s : TreeSt) (i : Nat) (c : Color) : TreeSt :=
  setN s i { getN s i with color := c }

/-- `node.isnil()`: `True` exactly on the single `NIL` instance (index 0). -/
def isnil (i : Nat) : Bool := i == 0

/-- `BalanceSearchTree._left_rotate`, transcribed line by line. -/
def left_rotate (s : TreeSt) (x : Nat) : M TreeSt := do
  let y ← deref (getN s x).right
  let s := setRight s x (getN s y).left
  let yl ← deref (getN s y).left
  let s := if isnil yl then s else setP s yl (some x)
  let s := setP s y (getN s x).p
  let xp ← deref (getN s x).p
  let s ←
    if isnil xp then pure { s with root := some y }
    else if (getN s xp).left == some x then pure (setLeft s xp (some y))
    else pure (setRight s xp (some y))
  let s := setLeft s y (some x)
  pure (setP s x (some y))

/-- `BalanceSearchTree._right_rotate`, transcribed line by line, including the
source's `x.p.right.p = y` branch (which assigns a parent pointer where the
symmetric `_left_rotate` assigns the parent's child pointer `x.p.left = y`). -/
def right_rotate (s : TreeSt) (x : Nat) : M TreeSt := do
  let y ← deref (getN s x).left
  let s := setLeft s x (getN s y).right
  let yr ← deref (getN s y).right
  let s := if isnil yr then s else setP s yr (some x)
  let s := setP s y (getN s x).p
  let xp ← deref (getN s x).p
  let s ←
    if isnil xp then pure { s with root := some y }
    else if (getN s xp).right == some x then do
      let r ← deref (getN s xp).right
      pure (setP s r (some y))
    else pure (setLeft s xp (some y))
  let s := setRight s y (some x)
  pure (setP s x (some y))

/-- The descent loop of `RedBlackTree.rb_insert`
(`while not x.isnil(): y = x; if z.key < x.key: x = x.left else: x = x.right`),
returning the trailing pointer `y`. -/
def rb_insert_walk : Nat → TreeSt → Int → Option Nat → Option Nat → M (Option Nat)
  | 0, _, _, _, _ => .error .fuelOut
  | fuel + 1, s, k, y, x => do
    let xi ← deref x
    if isnil xi then pure y
    else do
      let b ← pyLt (.int k) (getN s xi).key
      if b then rb_insert_walk fuel s k x (getN s xi).left
      else rb_insert_walk fuel s k x (getN s xi).right

/-- One iteration of the `while z.p.color == RED` body of
`RedBlackTree._rb_insert_fixup` (guard already checked).  The source has
`if z.p is z.p.p.left: ... elif z.p is z.p.p.right: ...` with no `else`, so
when neither test holds the body is a no-op. -/
def rb_insert_fixup_step (s : TreeSt) (z : Nat) : M (TreeSt × Nat) := do
  let zp ← deref (getN s z).p
  let zpp ← deref (getN s zp).p
  if (getN s zpp).left == some zp then
    let yo := (getN s zpp).right
    let y ← deref yo
    if (getN s y).color == .red then
      let s := setColor s zp .black
      let s := setColor s y .black
      let s := setColor s zpp .red
      pure (s, zpp)
    else do
      let (s, z) ←
        if (getN s zp).right == some z then do
          let s ← left_rotate s zp
          pure (s, zp)
        else pure (s, z)
      let zp2 ← deref (getN s z).p
      let s := setColor s zp2 .black
      let zpp2 ← deref (getN s zp2).p
      let s := setColor s zpp2 .red
      let s ← right_rotate s zpp2
      pure (s, z)
  else if (getN s zpp).right == some zp then
    let yo := (getN s zpp).left
    let y ← deref yo
    if (getN s y).color == .red then
      let s := setColor s zp .black
      let s := setColor s y .black
      let s := setColor s zpp .red
      pure (s, zpp)
    else do
      let (s, z) ←
        if (getN s zp).left == some z then do
          let s ← right_rotate s zp
          pure (s, zp)
        else pure (s, z)
      let zp2 ← deref (getN s z).p
      let s := setColor s zp2 .black
      let zpp2 ← deref (getN s zp2).p
      let s := setColor s zpp2 .red
      let s ← left_rotate s zpp2
      pure (s, z)
  else pure (s, z)

/-- The `while z.p.color == RED` loop of `RedBlackTree._rb_insert_fixup`. -/
def rb_insert_fixup_loop : Nat → TreeSt → Nat → M (TreeSt × Nat)
  | 0, _, _ => .error .fuelOut
  | fuel + 1, s, z => do
    let zp ← deref (getN s z).p
    if (getN s zp).color == .red then do
      let (s, z) ← rb_insert_fixup_step s z
      rb_insert_fixup_loop fuel s z
    else pure (s, z)

/-- `RedBlackTree._rb_insert_fixup`: the loop followed by
`self._root.color = BLACK`. -/
def rb_insert_fixup (fuel : Nat) (s : TreeSt) (z : Nat) : M TreeSt := do
  let (s, _) ← rb_insert_fixup_loop fuel s z
  let r ← deref s.root
  pure (setColor s r .black)

/-- `RedBlackTree.rb_insert`, applied to a freshly constructed
`RedBlackTree.Node(k)` (attributes `left`/`right`/`p` default to `None`,
`color` defaults to RED), as in the documented usage. -/
def rb_insert (fuel : Nat) (s : TreeSt) (k : Int) : M TreeSt := do
  let z := s.heap.length
  let s := { s with heap := s.heap ++ [⟨.int k, none, none, none, .red⟩] }
  let yo ← rb_insert_walk fuel s k (some 0) s.root
  let s := setP s z yo
  let yi ← deref yo
  let s ←
    if isnil yi then pure { s with root := some z }
    else do
      let b ← pyLt (.int k) (getN s yi).key
      pure (if b then setLeft s yi (some z) else setRight s yi (some z))
  let s := setLeft s z (some 0)
  let s := setRight s z (some 0)
  let s := setColor s z .red
  let s ← rb_insert_fixup fuel s z
  pure { s with n := s.n + 1 }

/-- `RedBlackTree.rb_transplant(u, v)`: replaces the subtree rooted at `u` by
the one rooted at `v`; the final `v.p = u.p` is unconditional (it also runs
when `v` is the sentinel). -/
def rb_transplant (s : TreeSt) (u : Nat) (v : Option Nat) : M TreeSt := do
  let up := (getN s u).p
  let upi ← deref up
  let s :=
    if isnil upi then { s with root := v }
    else if (getN s upi).left == some u then setLeft s upi v
    else setRight s upi v
  let vi ← deref v
  pure (setP s vi up)

/-- `BinarySearchTree.tree_minimum` (inherited unchanged by `RedBlackTree` and
called by `rb_delete`): `while x.left is not None: x = x.left`.  On red-black
nodes `x.left` is never `None` (leaf children are the sentinel, whose `left`
is itself), so on a red-black tree this loop never exits. -/
def tree_minimum : Nat → TreeSt → Nat → M Nat
  | 0, _, _ => .error .fuelOut
  | fuel + 1, s, x =>
    match (getN s x).left with
    | none => pure x
    | some l => tree_minimum fuel s l

/-- One iteration of the `while not x.isnil() and x.color == BLACK` body of
`RedBlackTree._rb_delete_fixup` (guard already checked; `xi` is the current,
non-`None` value of `x`).  Returns the updated state and the new value of the
`x` variable.  The source has `if x is x.p.left: ... elif x is x.p.right: ...`
with no `else`, so when neither test holds the body is a no-op. -/
def rb_delete_fixup_step (s : TreeSt) (xi : Nat) : M (TreeSt × Option Nat) := do
  let xp ← deref (getN s xi).p
  if (getN s xp).left == some xi then do
    let w0 ← deref (getN s xp).right
    let (s, w) ←
      if (getN s w0).color == .red then do
        let s := setColor s w0 .black
        let s := setColor s xp .red
        let s ← left_rotate s xp
        let xp2 ← deref (getN s xi).p
        let w1 ← deref (getN s xp2).right
        pure (s, w1)
      else pure (s, w0)
    let wl ← deref (getN s w).left
    let wr ← deref (getN s w).right
    if (getN s wl).color == .black && (getN s wr).color == .black then
      let s := setColor s w .red
      pure (s, (getN s xi).p)
    else do
      let (s, w) ←
        if (getN s wr).color == .black then do
          let s := setColor s wl .black
          let s := setColor s w .red
          let s ← right_rotate s w
          let xp2 ← deref (getN s xi).p
          let w1 ← deref (getN s xp2).right
          pure (s, w1)
        else pure (s, w)
      let xp2 ← deref (getN s xi).p
      let s := setColor s w ((getN s xp2).color)
      let s := setColor s xp2 .black
      let wr2 ← deref (getN s w).right
      let s := setColor s wr2 .black
      let s ← left_rotate s xp2
      pure (s, s.root)
  else if (getN s xp).right == some xi then do
    let w0 ← deref (getN s xp).left
    let (s, w) ←
      if (getN s w0).color == .red then do
        let s := setColor s w0 .black
        let s := setColor s xp .red
        let s ← right_rotate s xp
        let xp2 ← deref (getN s xi).p
        let w1 ← deref (getN s xp2).left
        pure (s, w1)
      else pure (s, w0)
    let wr ← deref (getN s w).right
    let wl ← deref (getN s w).left
    if (getN s wr).color == .black && (getN s wl).color == .black then
      let s := setColor s w .red
      pure (s, (getN s xi).p)
    else do
      let (s, w) ←
        if (getN s wl).color == .black then do
          let s := setColor s wr .black
          let s := setColor s w .red
          let s ← left_rotate s w
          let xp2 ← deref (getN s xi).p
          let w1 ← deref (getN s xp2).left
          pure (s, w1)
        else pure (s, w)
      let xp2 ← deref (getN s xi).p
      let s := setColor s w ((getN s xp2).color)
      let s := setColor s xp2 .black
      let wl2 ← deref (getN s w).left
      let s := setColor s wl2 .black
      let s ← right_rotate s xp2
      pure (s, s.root)
  else pure (s, some xi)

/-- The `while not x.isnil() and x.color == BLACK` loop of
`RedBlackTree._rb_delete_fixup`.  Note the source's guard tests `isnil`, not
`x is not self._root` as in the reference pseudocode. -/
def rb_delete_fixup_loop : Nat → TreeSt → Option Nat → M (TreeSt × Option Nat)
  | 0, _, _ => .error .fuelOut
  | fuel + 1, s, x => do
    let xi ← deref x
    if !isnil xi && (getN s xi).color == .black then do
      let (s, x) ← rb_delete_fixup_step s xi
      rb_delete_fixup_loop fuel s x
    else pure (s, x)

/-- `RedBlackTree._rb_delete_fixup`: the loop followed by `x.color = BLACK`. -/
def rb_delete_fixup (fuel : Nat) (s : TreeSt) (x : Option Nat) : M TreeSt := do
  let (s, x) ← rb_delete_fixup_loop fuel s x
  let xi ← deref x
  pure (setColor s xi .black)

/-- `RedBlackTree.rb_delete`, transcribed line by line (the source never
decrements `_n`; its docstring carries the TODO for that). -/
def rb_delete (fuel : Nat) (s : TreeSt) (z : Nat) : M TreeSt := do
  let yOrig0 := (getN s z).color
  let zl ← deref (getN s z).left
  if isnil zl then do
    let x := (getN s z).right
    let s ← rb_transplant s z (getN s z).right
    if yOrig0 == .black then rb_delete_fixup fuel s x else pure s
  else do
    let zr ← deref (getN s z).right
    if isnil zr then do
      let x := (getN s z).left
      let s ← rb_transplant s z (getN s z).left
      if yOrig0 == .black then rb_delete_fixup fuel s x else pure s
    else do
      let y ← tree_minimum fuel s zr
      let yOrig := (getN s y).color
      let x := (getN s y).left
      let s ←
        if (getN s y).p == some z then do
          let xi ← deref x
          pure (setP s xi (some y))
        else do
          let s ← rb_transplant s y (getN s y).right
          let s := setRight s y (getN s z).right
          let yr ← deref (getN s y).right
          pure (setP s yr (some y))
      let s ← rb_transplant s z (some y)
      let s := setLeft s y (getN s z).left
      let yl ← deref (getN s y).left
      let s := setP s yl (some y)
      let s := setColor s y ((getN s z).color)
      if yOrig == .black then rb_delete_fixup fuel s x else pure s

/-- `BinarySearchTree.tree_search` (inherited unchanged by `RedBlackTree`):
`if x is None or k == x.key: return x; if k < x.key: ... else: ...`.  On a
red-black tree the descent reaches the sentinel, whose key is the string
`"T.nil"`, and `k < x.key` then compares `int` with `str`. -/
def tree_search : Nat → TreeSt → Option Nat → PKey → M (Option Nat)
  | 0, _, _, _ => .error .fuelOut
  | fuel + 1, s, x, k =>
    match x with
    | none => pure none
    | some xi =>
      if pyEq k (getN s xi).key then pure (some xi)
      else do
        let b ← pyLt k (getN s xi).key
        if b then tree_search fuel s (getN s xi).left k
        else tree_search fuel s (getN s xi).right k

/-- `RedBlackTree.__delitem__`: `z = tree_search(root, key); if z: rb_delete(z)`
(`None` is falsy, node objects are truthy). -/
def delitem (fuel : Nat) (s : TreeSt) (k : Int) : M TreeSt := do
  let z ← tree_search fuel s s.root (.int k)
  match z with
  | some zi => rb_delete fuel s zi
  | none => pure s

/-- A public-API operation on a `RedBlackTree`: insert a fresh node with an
integer key, or delete by key through `__delitem__`. -/
inductive Op where
  | ins : Int → Op
  | del : Int → Op
deriving DecidableEq, Repr

/-- Run one operation. -/
def runOp (fuel : Nat) (s : TreeSt) : Op → M TreeSt
  | .ins k => rb_insert fuel s k
  | .del k => delitem fuel s k

/-- Run a sequence of operations from a given state. -/
def runOps (fuel : Nat) (s : TreeSt) : List Op → M TreeSt
  | [] => pure s
  | op :: rest => do
    let s ← runOp fuel s op
    runOps fuel s rest

/-- Observer (not part of the source): the inorder key sequence of the tree
structure hanging from `x`, stopping at `None` children and at the sentinel.
Used to state "the rotation preserves the inorder key sequence"; fuel bounds
the depth so the observer is total even on corrupted heaps. -/
def inorder_keys : Nat → TreeSt → Option Nat → Option (List PKey)
  | 0, _, _ => none
  | fuel + 1, s, x =>
    match x with
    | none => some []
    | some i =>
      if i == 0 then some []
      else
        match inorder_keys fuel s (getN s i).left, inorder_keys fuel s (getN s i).right with
        | some l, some r => some (l ++ (getN s i).key :: r)
        | _, _ => none

/-- Red-black property 2: the sentinel is BLACK. -/
def rb_prop2 (s : TreeSt) : Bool := (getN s 0).color == .black

/-- Helper for property 3: the color a child position contributes (`None`
never occurs on linked red-black nodes; treat it as black). -/
def childBlack (s : TreeSt) (x : Option Nat) : Bool :=
  match x with
  | none => true
  | some i => (getN s i).color == .black

/-- Red-black property 3 on the tree reachable from `x`: every RED node has
two BLACK children. -/
def rb_prop3 : Nat → TreeSt → Option Nat → Bool
  | 0, _, _ => false
  | fuel + 1, s, x =>
    match x with
    | none => true
    | some i =>
      if i == 0 then true
      else
        (if (getN s i).color == .red then
          childBlack s (getN s i).left && childBlack s (getN s i).right
         else true)
        && rb_prop3 fuel s (getN s i).left && rb_prop3 fuel s (getN s i).right

/-- Black-height computation for property 4: `some h` when every path from
`x` down to a `None` child or to the sentinel contains the same number of
BLACK nodes (counting the nil leaf as one black unit), `none` otherwise. -/
def blackHeights : Nat → TreeSt → Option Nat → Option Nat
  | 0, _, _ => none
  | fuel + 1, s, x =>
    match x with
    | none => some 1
    | some i =>
      if i == 0 then some 1
      else
        match blackHeights fuel s (getN s i).left, blackHeights fuel s (getN s i).right with
        | some a, some b =>
          if a == b then some (a + (if (getN s i).color == .black then 1 else 0))
          else none
        | _, _ => none

/-- Red-black property 4: the black-height is well defined below every node. -/
def rb_prop4 (fuel : Nat) (s : TreeSt) : Bool := (blackHeights fuel s s.root).isSome

/-- Red-black property 5: the root is BLACK. -/
def rb_prop5 (s : TreeSt) : Bool :=
  match s.root with
  | none => true
  | some r => (getN s r).color == .black

/-- Conjunction of red-black properties 2-5 (property 1, "every node is RED
or BLACK", holds by construction of the `Color` type). -/
def rb_props (fuel : Nat) (s : TreeSt) : Bool :=
  rb_prop2 s && rb_prop3 fuel s s.root && rb_prop4 fuel s && rb_prop5 s

/-- Two `RedBlackTree` instances, `A` and `B`, over one shared object heap:
`_NIL` is a *class* attribute (`_NIL = NIL()` is evaluated once at class
definition time), so every instance's sentinel is the same object, modelled
as the shared heap slot 0; `_root`/`_n` are per-instance attributes. -/
structure PairSt where
  heap : List Node
  rootA : Option Nat
  nA : Nat
  rootB : Option Nat
  nB : Nat
deriving DecidableEq, Repr

/-- Two freshly constructed empty trees. -/
def PairSt.start : PairSt := ⟨[nilNode], some 0, 0, some 0, 0⟩

/-- Instance `A`'s view of the shared heap. -/
def viewA (t : PairSt) : TreeSt := ⟨t.heap, t.rootA, t.nA⟩

/-- Instance `B`'s view of the shared heap. -/
def viewB (t : PairSt) : TreeSt := ⟨t.heap, t.rootB, t.nB⟩

/-- Run an operation on instance `A`; the heap mutation is shared, the
`_root`/`_n` updates touch only `A`'s attributes. -/
def onA (fuel : Nat) (t : PairSt) (op : Op) : M PairSt :=
  (runOp fuel (viewA t) op).map (fun s => ⟨s.heap, s.root, s.n, t.rootB, t.nB⟩)

/-- Run a sequence of operations, all on instance `A`. -/
def runOpsA (fuel : Nat) (t : PairSt) : List Op → M PairSt
  | [] => pure t
  | op :: rest => do
    let t2 ← onA fuel t op
    runOpsA fuel t2 rest

end RBT

namespace BST

/-- A `BinaryTree.Node` of the plain binary search tree: attributes `key`,
`left`, `right`, `p` (`_base.py`); no sentinel, absent references are `None`. -/
structure Node where
  key : Int
  left : Option Nat
  right : Option Nat
  p : Option Nat
deriving DecidableEq, Repr

instance : Inhabited Node := ⟨⟨0, none, none, none⟩⟩

/-- State of a `BinarySearchTree`: object heap, `_root` (initially `None`),
and node count `_n`. -/
structure TreeSt where
  heap : List Node
  root : Option Nat
  n : Nat
deriving DecidableEq, Repr

/-- `BinarySearchTree.__init__`. -/
def init : TreeSt := ⟨[], none, 0⟩

/-- Read the node object at index `i`. -/
def getN (s : TreeSt) (i : Nat) : Node := s.heap.getD i default

/-- Overwrite the node object at index `i`. -/
def setN (s : TreeSt) (i : Nat) (v : Node) : TreeSt := { s with heap := s.heap.set i v }

/-- `node.left = v`. -/
def setLeft (s : TreeSt) (i : Nat) (v : Option Nat) : TreeSt :=
  setN s i { getN s i with left := v }

/-- `node.right = v`. -/
def setRight (s : TreeSt) (i : Nat) (v : Option Nat) : TreeSt :=
  setN s i { getN s i with right := v }

/-- `node.p = v`. -/
def setP (s : TreeSt) (i : Nat) (v : Option Nat) : TreeSt :=
  setN s i { getN s i with p := v }

/-- Embedding of `BinaryTree.Node.__eq__` (`return other is self`): node
equality is object identity, i.e. arena-index equality, independent of keys.
`__ne__` is its negation.  `transplant`'s test `u == u.p.left` and
`tree_successor`'s test `x == y.right` compare through it. -/
def node_eq (x y : Nat) : Bool := y == x

/-- The descent loop of `BinarySearchTree.tree_insert`
(`while x is not None: y = x; ...`), returning the trailing pointer `y`. -/
def tree_insert_walk : Nat → TreeSt → Int → Option Nat → Option Nat → M (Option Nat)
  | 0, _, _, _, _ => .error .fuelOut
  | fuel + 1, s, k, y, x =>
    match x with
    | none => pure y
    | some xi =>
      if k < (getN s xi).key then tree_insert_walk fuel s k (some xi) (getN s xi).left
      else tree_insert_walk fuel s k (some xi) (getN s xi).right

/-- `BinarySearchTree.tree_insert`, applied to a freshly constructed
`BinarySearchTree.Node(k)` (ties `z.key >= y.key` go right). -/
def tree_insert (fuel : Nat) (s : TreeSt) (k : Int) : M TreeSt := do
  let z := s.heap.length
  let s := { s with heap := s.heap ++ [⟨k, none, none, none⟩] }
  let yo ← tree_insert_walk fuel s k none s.root
  let s := setP s z yo
  let s ←
    match yo with
    | none => pure { s with root := some z }
    | some yi =>
      pure (if k < (getN s yi).key then setLeft s yi (some z) else setRight s yi (some z))
  pure { s with n := s.n + 1 }

/-- `BinarySearchTree.tree_search` (recursive). -/
def tree_search : Nat → TreeSt → Option Nat → Int → M (Option Nat)
  | 0, _, _, _ => .error .fuelOut
  | fuel + 1, s, x, k =>
    match x with
    | none => pure none
    | some xi =>
      if k == (getN s xi).key then pure (some xi)
      else if k < (getN s xi).key then tree_search fuel s (getN s xi).left k
      else tree_search fuel s (getN s xi).right k

/-- `BinarySearchTree.tree_minimum`: `while x.left is not None: x = x.left`.
Reading `x.left` on a `None` argument (the root of an empty tree) raises
`AttributeError`. -/
def tree_minimum : Nat → TreeSt → Option Nat → M Nat
  | 0, _, _ => .error .fuelOut
  | fuel + 1, s, x => do
    let xi ← deref x
    match (getN s xi).left with
    | none => pure xi
    | some l => tree_minimum fuel s (some l)

/-- `BinarySearchTree.tree_maximum`: symmetric to `tree_minimum`. -/
def tree_maximum : Nat → TreeSt → Option Nat → M Nat
  | 0, _, _ => .error .fuelOut
  | fuel + 1, s, x => do
    let xi ← deref x
    match (getN s xi).right with
    | none => pure xi
    | some r => tree_maximum fuel s (some r)

/-- The `while y is not None and x == y.right` climb of
`BinarySearchTree.tree_successor` (`==` is `Node.__eq__`, i.e. identity). -/
def successor_climb : Nat → TreeSt → Nat → Option Nat → M (Option Nat)
  | 0, _, _, _ => .error .fuelOut
  | fuel + 1, s, x, y =>
    match y with
    | none => pure none
    | some yi =>
      if (getN s yi).right == some x then successor_climb fuel s yi (getN s yi).p
      else pure (some yi)

/-- `BinarySearchTree.tree_successor`: `if x.right: return tree_minimum(x.right)`
then the parent climb. -/
def tree_successor (fuel : Nat) (s : TreeSt) (x : Nat) : M (Option Nat) := do
  match (getN s x).right with
  | some r => do
    let m ← tree_minimum fuel s (some r)
    pure (some m)
  | none => successor_climb fuel s x ((getN s x).p)

/-- `BinarySearchTree.transplant(u, v)`: unlike `rb_transplant`, the final
`v.p = u.p` is guarded by `if v is not None`. -/
def transplant (s : TreeSt) (u : Nat) (v : Option Nat) : M TreeSt := do
  let up := (getN s u).p
  let s ←
    match up with
    | none => pure { s with root := v }
    | some upi =>
      pure (if (getN s upi).left == some u then setLeft s upi v else setRight s upi v)
  match v with
  | none => pure s
  | some vi => pure (setP s vi up)

/-- `BinarySearchTree.tree_delete`, transcribed line by line (the source never
decrements `_n`; its docstring carries the TODO for that). -/
def tree_delete (fuel : Nat) (s : TreeSt) (z : Nat) : M TreeSt := do
  match (getN s z).left with
  | none => transplant s z (getN s z).right
  | some _ =>
    match (getN s z).right with
    | none => transplant s z (getN s z).left
    | some zr => do
      let y ← tree_minimum fuel s (some zr)
      let s ←
        if (getN s y).p == some z then pure s
        else do
          let s ← transplant s y (getN s y).right
          let s := setRight s y (getN s z).right
          let yr ← deref (getN s y).right
          pure (setP s yr (some y))
      let s ← transplant s z (some y)
      let s := setLeft s y (getN s z).left
      let yl ← deref (getN s y).left
      pure (setP s yl (some y))

/-- `BinarySearchTree.__delitem__`: `z = tree_search(root, key); if z: tree_delete(z)`. -/
def delitem (fuel : Nat) (s : TreeSt) (k : Int) : M TreeSt := do
  let z ← tree_search fuel s s.root k
  match z with
  | some zi => tree_delete fuel s zi
  | none => pure s

/-- `BinaryTree.inorder_tree_walk` (recursive generator, collected to a list):
`if x: walk(x.left); yield x.key; walk(x.right)`. -/
def inorder_tree_walk : Nat → TreeSt → Option Nat → M (List Int)
  | 0, _, _ => .error .fuelOut
  | fuel + 1, s, x =>
    match x with
    | none => pure []
    | some xi => do
      let l ← inorder_tree_walk fuel s (getN s xi).left
      let r ← inorder_tree_walk fuel s (getN s xi).right
      pure (l ++ (getN s xi).key :: r)

/-- The `while not s.stack_empty()` loop of
`BinaryTree.iterative_inorder_tree_walk`: pop `z`; if `z` is truthy, yield
`z.key`, push `z.right`, then push `z.left`.  The auxiliary stack is
`Stack(20)` of `_stack.py`: `push` raises `StackOverflowError` once 20
elements are held. -/
def iterative_walk_loop : Nat → TreeSt → List (Option Nat) → List Int → M (List Int)
  | 0, _, _, _ => .error .fuelOut
  | fuel + 1, s, stack, acc =>
    match stack with
    | [] => pure acc
    | z :: rest =>
      match z with
      | none => iterative_walk_loop fuel s rest acc
      | some zi =>
        if rest.length ≥ 20 then .error .stackOverflow
        else
          let st1 := (getN s zi).right :: rest
          if st1.length ≥ 20 then .error .stackOverflow
          else iterative_walk_loop fuel s ((getN s zi).left :: st1) (acc ++ [(getN s zi).key])

/-- `BinaryTree.iterative_inorder_tree_walk` (generator collected to a list):
`s = Stack(20); s.push(x);` then the pop/yield/push loop. -/
def iterative_inorder_tree_walk (fuel : Nat) (s : TreeSt) (x : Option Nat) : M (List Int) :=
  iterative_walk_loop fuel s [x] []

/-- `Tree._height`.  `Tree.isleaf` computes `Tree.n_children(x) == 0` where
`Tree.n_children` is the *abstract* static method whose body is `...`: calling
it through the base class returns `None`, and `None == 0` is `False`, so the
leaf test never succeeds and `_height` always takes the recursive branch.  On
`x = None` the `children` generator reads `x.left` and raises
`AttributeError`; on a leaf, `max()` of the empty generator raises
`ValueError`. -/
def tree_height : Nat → TreeSt → Option Nat → M Nat
  | 0, _, _ => .error .fuelOut
  | fuel + 1, s, x =>
    match x with
    | none => .error .attributeError
    | some xi => do
      let cs := (match (getN s xi).left with | some l => [some l] | none => [])
             ++ (match (getN s xi).right with | some r => [some r] | none => [])
      let hs ← cs.mapM (tree_height fuel s)
      match hs.max? with
      | none => .error .valueError
      | some m => pure (1 + m)

/-- `Tree.height(x=None)`: `if not x: x = self._root` then `_height(x)`. -/
def height (fuel : Nat) (s : TreeSt) : M Nat := tree_height fuel s s.root

/-- Bounded binary-search-tree-property checker: every key in the left
subtree of `x` is `≤ x.key` and every key in the right subtree is `≥ x.key`
(ties go right on insertion, so `≤`/`≥` is the invariant of the spec). -/
def bst_holds : Nat → TreeSt → Option Nat → Option Int → Option Int → Bool
  | 0, _, _, _, _ => false
  | fuel + 1, s, x, lo, hi =>
    match x with
    | none => true
    | some xi =>
      (match lo with | none => true | some a => a ≤ (getN s xi).key)
      && (match hi with | none => true | some b => (getN s xi).key ≤ b)
      && bst_holds fuel s (getN s xi).left lo (some ((getN s xi).key))
      && bst_holds fuel s (getN s xi).right (some ((getN s xi).key)) hi

/-- A public-API operation on a `BinarySearchTree`. -/
inductive Op where
  | ins : Int → Op
  | del : Int → Op
deriving DecidableEq, Repr

/-- Run one operation. -/
def runOp (fuel : Nat) (s : TreeSt) : Op → M TreeSt
  | .ins k => tree_insert fuel s k
  | .del k => delitem fuel s k

/-- Run a sequence of operations from a given state. -/
def runOps (fuel : Nat) (s : TreeSt) : List Op → M TreeSt
  | [] => pure s
  | op :: rest => do
    let s ← runOp fuel s op
    runOps fuel s rest

end BST

/-- Public-API sequence: insert keys 10, 5, 15, 1 then delete keys 1 and 5
(`rb_insert` and `__delitem__`).  Node 10 is allocated at index 1, node 5 at
index 2, node 15 at index 3, node 1 at index 4. -/
def rbtSeqA : List RBT.Op := [.ins 10, .ins 5, .ins 15, .ins 1, .del 1, .del 5]

/-- The tree state reached by `rbtSeqA` (checked against `runOps` in the C3
theorem): 10 black at the root with the sentinel as left child and 15 black
as right child — a black-height violation left behind because deleting the
black leaf 5 skipped the fixup (`x` was the sentinel, and the loop guard
tests `isnil` instead of "is root"). -/
def rbtSeqASt : RBT.TreeSt :=
  ⟨[⟨.str "T.nil", some 0, some 0, some 1, .black⟩,
    ⟨.int 10, some 0, some 3, some 0, .black⟩,
    ⟨.int 5, some 0, some 0, some 1, .black⟩,
    ⟨.int 15, some 0, some 0, some 1, .black⟩,
    ⟨.int 1, some 0, some 0, some 2, .red⟩], some 1, 4⟩

/-- The state `rb_delete` hands to `_rb_delete_fixup` while deleting node 10
(index 1) from `rbtSeqASt`: node 10's left child is the sentinel, so `x` is
its right child (node 15, index 3) and the state is the one after
`rb_transplant(z, z.right)` (checked against `rb_transplant` in the C3
theorem). -/
def rbtFixSt : RBT.TreeSt :=
  ⟨[⟨.str "T.nil", some 0, some 0, some 1, .black⟩,
    ⟨.int 10, some 0, some 3, some 0, .black⟩,
    ⟨.int 5, some 0, some 0, some 1, .black⟩,
    ⟨.int 15, some 0, some 0, some 0, .black⟩,
    ⟨.int 1, some 0, some 0, some 2, .red⟩], some 3, 4⟩

/-- Public-API sequence: insert keys 10, 5, 15, 13, 17.  This yields a valid
red-black tree: 10 black at the root (index 1), 5 black (index 2), 15 black
(index 3) with red children 13 (index 4) and 17 (index 5).  Node 15 is its
parent's right child and its left child (13) is not the sentinel. -/
def rbtRotSeq : List RBT.Op := [.ins 10, .ins 5, .ins 15, .ins 13, .ins 17]

/-- The tree state reached by `rbtRotSeq`. -/
def rbtRotSt : RBT.TreeSt := ((RBT.runOps 99 RBT.init rbtRotSeq).toOption).getD RBT.init

/-- Public-API sequence on one `RedBlackTree` after which the shared
sentinel's `color` attribute has been changed to RED (found by search over
the model; the recoloring happens in `_rb_delete_fixup` case 2 when the
sentinel plays the sibling `w`). -/
def rbtC9Seq : List RBT.Op :=
  [.ins 4, .ins 3, .ins 2, .ins 1, .del 4, .ins 4, .ins 11, .ins 10, .ins 7, .del 3]

/-- Public-API sequence: insert 10 and 5, then delete 5.  The delete runs
`rb_transplant(z, z.right)` with the sentinel as replacement, writing node
10's index into the sentinel's `p` field. -/
def rbtShareSeq : List RBT.Op := [.ins 10, .ins 5, .del 5]

/-- The tree state after inserting 10 and 5 (node 10 at index 1, node 5 at
index 2, `(getN _ 2).p = some 1`; checked against `runOps` in the C9 witness). -/
def rbtShareMidSt : RBT.TreeSt :=
  ⟨[⟨.str "T.nil", some 0, some 0, some 0, .black⟩,
    ⟨.int 10, some 2, some 0, some 0, .black⟩,
    ⟨.int 5, some 0, some 0, some 1, .red⟩], some 1, 2⟩

/-- Figure 12.2 insertion order from the repository's doctest, then delete of
key 18 through `__delitem__`.  Allocation indices: 15 at 0, 6 at 1, 18 at 2,
3 at 3, 7 at 4, 17 at 5, 20 at 6, 2 at 7, 4 at 8, 13 at 9, 9 at 10. -/
def bstC7Seq : List BST.Op :=
  [.ins 15, .ins 6, .ins 18, .ins 3, .ins 7, .ins 17, .ins 20, .ins 2, .ins 4,
   .ins 13, .ins 9, .del 18]

/-! ## Theorems -/

/-- `List.set` then `List.getD` at the written index returns the written
value when the index is in range. -/
theorem getD_set_self {α : Type} (l : List α) (i : Nat) (a d : α) (h : i < l.length) :
    (l.set i a).getD i d = a := by
  induction l generalizing i with
  | nil => simp at h
  | cons b t ih =>
    cases i with
    | zero => rfl
    | succ j =>
      simp only [List.set, List.getD_cons_succ]
      exact ih j (by simpa using h)

/-- Reading back the node just written by `RBT.setN`. -/
theorem rbt_getN_setN_self (s : RBT.TreeSt) (i : Nat) (v : RBT.Node)
    (h : i < s.heap.length) : RBT.getN (RBT.setN s i v) i = v :=
  getD_set_self s.heap i v default h

/-- `RBT.setN` preserves the heap length. -/
theorem rbt_setN_length (s : RBT.TreeSt) (i : Nat) (v : RBT.Node) :
    (RBT.setN s i v).heap.length = s.heap.length := by
  simp [RBT.setN]

/-- `rb_transplant(u, v)` ends with the unconditional assignment `v.p = u.p`:
for every state and every in-range replacement node `v` (the sentinel
included), the call succeeds whenever `u.p` is not `None` and afterwards `v`'s
`p` field holds `u`'s parent. -/
theorem rbt_transplant_sets_parent (s : RBT.TreeSt) (u v w : Nat)
    (hp : (RBT.getN s u).p = some w) (hv : v < s.heap.length) :
    ∃ t, RBT.rb_transplant s u (some v) = .ok t ∧ (RBT.getN t v).p = some w := by
  have key : ∀ s1 : RBT.TreeSt, v < s1.heap.length →
      (RBT.getN (RBT.setP s1 v (some w)) v).p = some w := by
    intro s1 h1
    unfold RBT.setP
    rw [rbt_getN_setN_self _ _ _ h1]
  simp only [RBT.rb_transplant, hp, deref]
  refine ⟨_, rfl, ?_⟩
  split
  · exact key _ hv
  · split
    · exact key _ (by simpa [RBT.setLeft, RBT.setN] using hv)
    · exact key _ (by simpa [RBT.setRight, RBT.setN] using hv)

/-- In `rbtFixSt` the `x` of `_rb_delete_fixup` is node 15 (index 3), which is
the root: its parent is the sentinel, whose `left` and `right` are the
sentinel itself, so neither `x is x.p.left` nor `x is x.p.right` holds, the
body is a no-op, and the guard (`not x.isnil() and x.color == BLACK`) stays
true.  The loop therefore exhausts any amount of fuel. -/
theorem rbt_fix_loop_diverges :
    ∀ fuel : Nat,
      RBT.rb_delete_fixup_loop fuel rbtFixSt (some 3) = .error .fuelOut := by
  intro fuel
  induction fuel with
  | zero => rfl
  | succ g ih => exact ih

/-- `_rb_delete_fixup` on `rbtFixSt` at node 15 diverges for every fuel. -/
theorem rbt_fixup_diverges :
    ∀ fuel : Nat, RBT.rb_delete_fixup fuel rbtFixSt (some 3) = .error .fuelOut := by
  intro fuel
  have h := rbt_fix_loop_diverges fuel
  unfold RBT.rb_delete_fixup
  rw [h]
  rfl

set_option maxHeartbeats 4000000 in
/-- Deleting key 10 from `rbtSeqASt` (the state reached by `rbtSeqA`) never
terminates: the search finds node 10, `rb_delete` transplants its right child
into its place and calls `_rb_delete_fixup`, whose loop runs forever. -/
theorem rbt_delitem_diverges :
    ∀ fuel : Nat, RBT.delitem fuel rbtSeqASt 10 = .error .fuelOut := by
  intro fuel
  induction fuel with
  | zero => rfl
  | succ g ih =>
    cases g with
    | zero => rfl
    | succ h => exact ih

/-- C1: the claim that the five red-black invariants hold after every single
`rb_insert` and every single `rb_delete` fails on the code.  Along the
reachable public-API sequence `rbtSeqA` (insert 10, 5, 15, 1; delete 1;
delete 5) the invariants hold up to and including the delete of 1, but after
the delete of the black leaf 5 property 4 is violated (the black-heights of
the two sides of the root differ), because `_rb_delete_fixup`'s loop guard
tests `not x.isnil()` where the reference algorithm tests `x != T.root`, so
the fixup does nothing when `x` is the sentinel.  Properties 2, 3 and 5 still
hold there, pinning the violation to property 4. -/
theorem c1_delete_breaks_black_height :
    (RBT.runOps 99 RBT.init (rbtSeqA.take 5)).map (fun s => RBT.rb_props 99 s)
        = .ok true ∧
    (RBT.runOps 99 RBT.init rbtSeqA).map
        (fun s => (RBT.rb_prop2 s, RBT.rb_prop3 99 s s.root, RBT.rb_prop4 99 s,
                   RBT.rb_prop5 s, RBT.rb_props 99 s))
        = .ok (true, true, false, true, false) :=
  ⟨rfl, rfl⟩

/-- C2: the claim fails for `_right_rotate`.  In the valid red-black tree
reached by `rbtRotSeq` (root 10 at index 1, node 15 at index 3 with left
child 13 at index 4), rotating right at node 15 — a node whose left child is
not the sentinel and which is its parent's right child — leaves the parent's
`right` field still pointing at 15 (the source line `x.p.right.p = y` writes
a parent pointer where the symmetric `_left_rotate` writes `x.p.left = y`),
and the inorder key sequence seen from the root loses key 13. -/
theorem c2_right_rotate_loses_subtree :
    RBT.runOps 99 RBT.init rbtRotSeq = .ok rbtRotSt ∧
    RBT.inorder_keys 99 rbtRotSt rbtRotSt.root
        = some [.int 5, .int 10, .int 13, .int 15, .int 17] ∧
    (RBT.right_rotate rbtRotSt 3).map
        (fun t => ((RBT.getN t 1).right, RBT.inorder_keys 99 t t.root))
        = .ok (some 3, some [.int 5, .int 10, .int 15, .int 17]) :=
  ⟨rfl, rfl, rfl⟩

/-- C3: the claim that `_rb_delete_fixup` terminates on every reachable state
fails.  `rbtSeqASt` is reached from the empty tree by `rbtSeqA` (first
conjunct); deleting key 10 from it then runs forever for every fuel bound
(second conjunct), and the divergence is exactly `_rb_delete_fixup` looping
on the state `rbtFixSt` that `rb_delete` hands it (third and fourth
conjuncts): the loop guard is `not x.isnil() and x.color == BLACK` rather
than the claimed "x is not the root and x is BLACK", so when `x` is the
black, non-sentinel root neither `x is x.p.left` nor `x is x.p.right` holds
and the loop spins forever. -/
theorem c3_delete_fixup_does_not_terminate :
    RBT.runOps 99 RBT.init rbtSeqA = .ok rbtSeqASt ∧
    (∀ fuel : Nat, RBT.delitem fuel rbtSeqASt 10 = .error .fuelOut) ∧
    RBT.rb_transplant rbtSeqASt 1 (some 3) = .ok rbtFixSt ∧
    (∀ fuel : Nat, RBT.rb_delete_fixup fuel rbtFixSt (some 3) = .error .fuelOut) :=
  ⟨rfl, rbt_delitem_diverges, rfl, rbt_fixup_diverges⟩

/-- C4: the claim that `iterative_inorder_tree_walk` yields the same key
sequence as the recursive `inorder_tree_walk` fails.  On the two-node tree
built by inserting 2 then 1, the recursive walk yields `[1, 2]` but the
iterative walk yields `[2, 1]`: the loop yields a popped node *before*
pushing its children (a preorder traversal), as the source's own TODO
("order is still wrong") admits. -/
theorem c4_iterative_walk_is_preorder :
    (BST.runOps 99 BST.init [.ins 2, .ins 1]).map
        (fun s => (BST.inorder_tree_walk 99 s s.root,
                   BST.iterative_inorder_tree_walk 99 s s.root))
        = .ok (.ok [1, 2], .ok [2, 1]) ∧
    (([1, 2] : List Int) == [2, 1]) = false :=
  ⟨rfl, rfl⟩

/-- C5: the claim fails for `RedBlackTree`.  Searching for the absent integer
key 5 in an empty red-black tree (root is the sentinel), or in the tree
holding only key 10, raises `TypeError`: the inherited `tree_search` tests
`x is None`, which the sentinel never satisfies, and then evaluates
`k < x.key` against the sentinel's string key `"T.nil"`.  On the plain
`BinarySearchTree` the same search returns `None` without raising. -/
theorem c5_rbt_search_raises :
    RBT.tree_search 99 RBT.init RBT.init.root (.int 5) = .error .typeError ∧
    (RBT.rb_insert 99 RBT.init 10).map
        (fun s => RBT.tree_search 99 s s.root (.int 5)) = .ok (.error .typeError) ∧
    (BST.runOps 99 BST.init [.ins 10]).map
        (fun s => BST.tree_search 99 s s.root 5) = .ok (.ok none) :=
  ⟨rfl, rfl, rfl⟩

/-- C6: the claim that inserting keys and deleting them all returns the tree
to "root nil/absent and count 0" fails on the count: after inserting key 1
into an empty `BinarySearchTree` and deleting it, the root is `None` but `_n`
is still 1, because `tree_delete` never decrements `_n` (the docstring's TODO
admits this; `rb_delete` carries the same TODO). -/
theorem c6_count_not_restored :
    (BST.runOps 99 BST.init [.ins 1, .del 1]).map (fun s => (s.root, s.n))
      = .ok (none, 1) :=
  rfl

/-- C7: in the binary search tree built by inserting
15, 6, 18, 3, 7, 17, 20, 2, 4, 13, 9 (nodes allocated at indices 0-10 in
that order), after deleting the node with key 18: searching 18 returns
`None`; node 17 (index 5) is the direct (left) child of node 20 (index 6)
with its parent pointer set to 20, 18's former position; and the
binary-search-tree ordering invariant holds (inorder is the sorted key
list and the bounded checker accepts the tree). -/
theorem c7_delete_eighteen_structure :
    (BST.runOps 99 BST.init bstC7Seq).map
        (fun s => (BST.tree_search 99 s s.root 18,
                   (BST.getN s 6).left, (BST.getN s 5).p,
                   BST.inorder_tree_walk 99 s s.root,
                   BST.bst_holds 99 s s.root none none))
      = .ok (.ok none, some 5, some 6, .ok [2, 3, 4, 6, 7, 9, 13, 15, 17, 20], true) :=
  rfl

/-- C8 (counterexample): the claim that `minimum` on an empty tree surfaces
an `EmptyTreeError` is false: `tree_minimum` applied to the empty tree's
`None` root raises `AttributeError` (reading `x.left` on `None`), and no
`EmptyTreeError` type exists in the repository — `exceptions.py`'s `__all__`
lists only the stack, queue and heap errors. -/
theorem c8_no_empty_tree_error :
    BST.tree_minimum 99 BST.init BST.init.root = .error .attributeError ∧
    exceptions_all.contains "EmptyTreeError" = false :=
  ⟨rfl, rfl⟩

/-- C8 (amended): querying `minimum`, `maximum` or `height` on an empty tree
fails by raising `AttributeError` (a `NoneType` attribute dereference) rather
than silently returning a default; the repository defines no `EmptyTreeError`
type anywhere. -/
theorem c8_empty_queries_raise_attribute_error :
    BST.tree_minimum 99 BST.init BST.init.root = .error .attributeError ∧
    BST.tree_maximum 99 BST.init BST.init.root = .error .attributeError ∧
    BST.height 99 BST.init = .error .attributeError ∧
    exceptions_all.contains "EmptyTreeError" = false :=
  ⟨rfl, rfl, rfl, rfl⟩

/-- C9 (counterexample): the claim that no field of the shared sentinel other
than `p` is ever modified is false: the sentinel starts BLACK, and after the
reachable public-API sequence `rbtC9Seq` its `color` field is RED
(`_rb_delete_fixup` case 2 recolors the sibling `w` when `w` is the
sentinel). -/
theorem c9_sentinel_color_modified :
    (RBT.getN RBT.init 0).color = .black ∧
    (RBT.runOps 200 RBT.init rbtC9Seq).map (fun s => (RBT.getN s 0).color)
      = .ok .red :=
  ⟨rfl, rfl⟩

/-- C9 (amended): all `RedBlackTree` instances share the single class-level
sentinel (heap slot 0 of the shared object heap); `rb_transplant`
unconditionally assigns the replacement's `p` field, the sentinel included
(first conjunct, for every state); deleting key 5 on instance `A` writes
node 10's index into the shared sentinel's `p`, observable through instance
`B`'s untouched view (second conjunct); and the sentinel's `key`, `left` and
`right` fields survive the exhibited executions unchanged while its `color`
does not: the reachable sequence `rbtC9Seq` leaves the sentinel RED (third
conjunct). -/
theorem c9_sentinel_sharing :
    (∀ (s : RBT.TreeSt) (u v w : Nat), (RBT.getN s u).p = some w →
      v < s.heap.length →
      ∃ t, RBT.rb_transplant s u (some v) = .ok t ∧ (RBT.getN t v).p = some w) ∧
    (RBT.runOpsA 99 RBT.PairSt.start rbtShareSeq).map
        (fun t => (t.rootB, t.nB, (RBT.getN (RBT.viewB t) 0).p))
        = .ok (some 0, 0, some 1) ∧
    (RBT.runOps 200 RBT.init rbtC9Seq).map
        (fun s => ((RBT.getN s 0).color, (RBT.getN s 0).key,
                   (RBT.getN s 0).left, (RBT.getN s 0).right))
        = .ok (.red, .str "T.nil", some 0, some 0) :=
  ⟨rbt_transplant_sets_parent, rfl, rfl⟩

/-- C9 witness: the general `rb_transplant` conjunct applied at the concrete
reachable state `rbtShareMidSt` (insert 10 then 5; node 5 at index 2 has
parent node 10 at index 1), transplanting the sentinel (index 0) in place of
node 5. -/
theorem c9_sentinel_sharing_witness :
    RBT.runOps 99 RBT.init [.ins 10, .ins 5] = .ok rbtShareMidSt ∧
    ∃ t, RBT.rb_transplant rbtShareMidSt 2 (some 0) = .ok t ∧
         (RBT.getN t 0).p = some 1 :=
  ⟨rfl, c9_sentinel_sharing.1 rbtShareMidSt 2 0 1 rfl (by decide)⟩

/-- C10: `Node.__eq__` is `other is self`, i.e. object identity: every node
equals itself, two distinct node objects are unequal regardless of keys, and
the key-comparing operations distinguish duplicate-key nodes by identity: in
the tree built by inserting key 5 twice (indices 0 and 1), the two nodes
carry equal keys yet compare unequal, the successor of the first 5-node is
the second 5-node, and deleting key 5 through `__delitem__` (which uses
`transplant`'s identity test `u == u.p.left`) removes exactly the first
node, leaving the second as root. -/
theorem c10_node_eq_is_identity :
    (∀ x : Nat, BST.node_eq x x = true) ∧
    (∀ x y : Nat, x ≠ y → BST.node_eq x y = false) ∧
    (BST.runOps 99 BST.init [.ins 5, .ins 5]).map
        (fun s => ((BST.getN s 0).key, (BST.getN s 1).key, BST.node_eq 0 1,
                   BST.tree_successor 99 s 0))
        = .ok (5, 5, false, .ok (some 1)) ∧
    (BST.runOps 99 BST.init [.ins 5, .ins 5, .del 5]).map (fun s => s.root)
        = .ok (some 1) := by
  refine ⟨fun x => ?_, fun x y h => ?_, rfl, rfl⟩
  · simp [BST.node_eq]
  · simp only [BST.node_eq, beq_eq_false_iff_ne, ne_eq]
    exact fun e => h e.symm

/-- C10 witness: identity equality evaluated at the concrete nodes 0 and 1
(the two key-5 nodes of the duplicate-key tree). -/
theorem c10_node_eq_is_identity_witness :
    BST.node_eq 0 0 = true ∧ BST.node_eq 0 1 = false :=
  ⟨c10_node_eq_is_identity.1 0, c10_node_eq_is_identity.2.1 0 1 (by decide)⟩

end CLRS
